import Mathlib

/-!
Verification development for the xAI chat relay (`src/app.py`).

The relay is a FastAPI application with three endpoints:
`POST /v1/chat/completions` (blocking or streaming relay to the upstream
provider), `GET /v1/models` (live list with a static fallback), and
`GET /health`.  The definitions below are a shallow embedding of that
code: Python strings become `String`, decoded JSON values become the
inductive `Json`, the effectful upstream call becomes an explicit
`UpstreamOutcome` argument, and exception control flow becomes explicit
result constructors.  Numeric JSON payload values are modelled as
integers and floating-point request parameters as rationals; no claim
computes with those values, only with key presence.
-/

/-- A decoded JSON value, as produced by `response.json()` /
`json.loads`.  Numeric values are modelled as integers (the claims never
inspect numeric payloads). -/
inductive Json where
  | str : String → Json
  | num : Int → Json
  | bool : Bool → Json
  | null : Json
  | arr : List Json → Json
  | obj : List (String × Json) → Json

mutual
/-- Python `repr` of a decoded-JSON value (exact for strings that contain
no quote, backslash or control characters, which is all the claims use). -/
def pyRepr : Json → String
  | .str s => "'" ++ s ++ "'"
  | .num n => toString n
  | .bool b => if b then "True" else "False"
  | .null => "None"
  | .arr xs => "[" ++ String.intercalate ", " (pyReprList xs) ++ "]"
  | .obj kvs => "\x7b" ++ String.intercalate ", " (pyReprObj kvs) ++ "\x7d"

def pyReprList : List Json → List String
  | [] => []
  | x :: xs => pyRepr x :: pyReprList xs

def pyReprObj : List (String × Json) → List String
  | [] => []
  | (k, v) :: xs => ("'" ++ k ++ "': " ++ pyRepr v) :: pyReprObj xs
end

/-- Python `str` applied to a decoded-JSON value, as an f-string does:
a `str` converts to itself, everything else to its `repr`. -/
def pyFStr : Json → String
  | .str s => s
  | j => pyRepr j

/-- Python `str.startswith`: code-point prefix test.  (Python indexes
strings by code point; Lean's built-in `String.startsWith` is
byte-position based and not kernel-computable, so the embedding works on
`String.data` directly — the results agree.) -/
def pyStartsWith (s p : String) : Bool :=
  p.data.isPrefixOf s.data

/-- Python slicing `s[n:]`: drop the first `n` code points. -/
def pyDrop (s : String) (n : Nat) : String :=
  String.mk (s.data.drop n)

/-- Python slicing `s[:n]`: keep the first `n` code points. -/
def pyTake (s : String) (n : Nat) : String :=
  String.mk (s.data.take n)

/-- One lower-case hexadecimal digit. -/
def hexDigit (n : Nat) : Char :=
  if n < 10 then Char.ofNat (48 + n) else Char.ofNat (87 + n)

/-- Four-digit lower-case hexadecimal rendering, as in `\uXXXX` escapes. -/
def toHex4 (n : Nat) : String :=
  String.mk [hexDigit (n / 4096 % 16), hexDigit (n / 256 % 16),
             hexDigit (n / 16 % 16), hexDigit (n % 16)]

/-- How Python `json.dumps` (default `ensure_ascii=True`) escapes one
character inside a JSON string literal. -/
def jsonEscapeChar (c : Char) : String :=
  if c = '"' then "\\\""
  else if c = '\\' then "\\\\"
  else if c.toNat = 8 then "\\b"
  else if c.toNat = 9 then "\\t"
  else if c.toNat = 10 then "\\n"
  else if c.toNat = 12 then "\\f"
  else if c.toNat = 13 then "\\r"
  else if c.toNat < 32 then "\\u" ++ toHex4 c.toNat
  else if c.toNat < 127 then String.mk [c]
  else if c.toNat < 65536 then "\\u" ++ toHex4 c.toNat
  else
    let v := c.toNat - 65536
    "\\u" ++ toHex4 (55296 + v / 1024) ++ "\\u" ++ toHex4 (56320 + v % 1024)

/-- Escape a whole string for a JSON string literal (`json.dumps` body). -/
def jsonEscape (s : String) : String :=
  String.join (s.toList.map jsonEscapeChar)

/-- `json.dumps` of a one-entry dict whose single key is the literal
`error` and whose value is the string `msg`, e.g.
`json.dumps(\x7b'error': str(e)\x7d)` in `stream_generator`. -/
def jsonDumpsError (msg : String) : String :=
  "\x7b\"error\": \"" ++ jsonEscape msg ++ "\"\x7d"

/-! ## The streaming relay (`stream_generator`, app.py lines 29-42)

`stream_generator(response, stream)` iterates `response.iter_lines()`;
each delivered chunk is a line of bytes, here already decoded to a
`String` (UTF-8 decode, `chunk.decode('utf-8')`).  The upstream stream
either ends normally (the line iterator is exhausted) or raises a
`RequestException` mid-iteration; the `except` clause then yields one
synthesized error event.  The `finally` clause closes the response when
the `stream` flag is set; it runs exactly once on every way out of the
generator body, including the `GeneratorExit` thrown when the consumer
abandons the generator. -/

/-- How one delivered line is handled inside the `for` loop of
`stream_generator`: a falsy (empty) chunk produces nothing, a chunk
starting with `data: ` is re-framed with the prefix stripped
(`decoded_chunk[6:]`), and any other chunk produces the synthesized
invalid-format error event. -/
def relayChunk (decoded_chunk : String) : Option String :=
  if decoded_chunk = "" then none
  else if pyStartsWith decoded_chunk "data: " then
    some ("data: " ++ pyDrop decoded_chunk 6 ++ "\n\n")
  else
    some ("data: " ++ jsonDumpsError "Invalid chunk format" ++ "\n\n")

/-- How the upstream line stream terminates: the iterator is exhausted,
or a `RequestException` with message `msg` (Python `str(e)`) is raised
while iterating. -/
inductive StreamEnding where
  | normal : StreamEnding
  | transportError : String → StreamEnding
deriving DecidableEq

/-- The full sequence of events `stream_generator` yields for a given
upstream line sequence and ending: the loop's per-line events, followed
by the `except RequestException` clause's single error event when the
iteration was cut short by a transport failure. -/
def emittedEvents (lines : List String) (ending : StreamEnding) : List String :=
  lines.filterMap relayChunk ++
    match ending with
    | .normal => []
    | .transportError msg => ["data: " ++ jsonDumpsError msg ++ "\n\n"]

/-- How the consumer of the generator exits: it drains the generator to
the end, or abandons it after taking `n` events (client disconnect or
cancellation, delivered to the generator as `GeneratorExit`). -/
inductive ConsumerStop where
  | drained : ConsumerStop
  | cancelled : Nat → ConsumerStop
deriving DecidableEq

/-- Observable outcome of one run of `stream_generator`: the events the
consumer received and how many times `response.close()` was called. -/
structure StreamRun where
  events : List String
  closes : Nat
deriving DecidableEq

/-- The `finally` clause of `stream_generator`: `if stream:
response.close()`.  Python runs a `finally` clause exactly once on every
exit from the `try` body — normal completion, exception, or
`GeneratorExit` on consumer abandonment. -/
def finallyClose (stream : Bool) (run : StreamRun) : StreamRun :=
  if stream then { run with closes := run.closes + 1 } else run

/-- One complete run of `stream_generator(response, stream)`: the events
actually delivered (all of them, or a prefix if the consumer cancels),
then the `finally` clause. -/
def stream_generator (lines : List String) (ending : StreamEnding)
    (stream : Bool) (stop : ConsumerStop) : StreamRun :=
  let delivered :=
    match stop with
    | .drained => emittedEvents lines ending
    | .cancelled n => (emittedEvents lines ending).take n
  finallyClose stream { events := delivered, closes := 0 }

/-! ## The inbound request model (`ChatRequest`, app.py lines 18-26)

`ChatRequest` is a pydantic model.  `req.dict(exclude_unset=True)`
returns, in field-declaration order, exactly the fields the client
supplied: a field the client omitted is absent, while a field the
client explicitly set — even to `null` or to the default — is present.
An optional nullable field is therefore `Option (Option α)`: `none` is
unset, `some none` explicitly `null`, `some (some v)` a value.  The
`stream` field is a plain `bool` with default `False`, so it is `Option
Bool` (`none` = unset; its effective value is then `false`).
Floating-point parameters are modelled as rationals; no claim computes
with their values. -/

/-- One message object: an open-ended mapping (role/content plus
provider-specific extension fields, all modelled as strings). -/
def Message : Type := List (String × String)

/-- A JSON value as it appears in the forwarded payload dict. -/
inductive FieldVal where
  | msgs : List Message → FieldVal
  | str : String → FieldVal
  | int : Int → FieldVal
  | float : Rat → FieldVal
  | bool : Bool → FieldVal
  | null : FieldVal

/-- The pydantic request model (app.py lines 18-26). -/
structure ChatRequest where
  messages : List Message
  model : String
  max_tokens : Option (Option Int) := none
  temperature : Option (Option Rat) := none
  top_p : Option (Option Rat) := none
  stream : Option Bool := none
  presence_penalty : Option (Option Rat) := none
  frequency_penalty : Option (Option Rat) := none

/-- The effective value of `req.stream`: `False` when the client left it
unset (the pydantic default). -/
def ChatRequest.streamFlag (r : ChatRequest) : Bool :=
  r.stream.getD false

/-- Dict entry contributed by one optional nullable field under
`exclude_unset=True`: nothing if unset, `null` if explicitly null, the
encoded value otherwise. -/
def optField (name : String) (enc : α → FieldVal) :
    Option (Option α) → List (String × FieldVal)
  | none => []
  | some none => [(name, .null)]
  | some (some v) => [(name, enc v)]

/-- Dict entry contributed by the non-nullable `stream` field under
`exclude_unset=True`: nothing if the client left it unset. -/
def streamField : Option Bool → List (String × FieldVal)
  | none => []
  | some b => [("stream", .bool b)]

/-- `req.dict(exclude_unset=True)` (app.py line 61): the supplied fields
in declaration order.  `messages` and `model` are required, so any
validated request has them set. -/
def ChatRequest.dictExcludeUnset (r : ChatRequest) : List (String × FieldVal) :=
  [("messages", .msgs r.messages), ("model", .str r.model)]
    ++ optField "max_tokens" FieldVal.int r.max_tokens
    ++ optField "temperature" FieldVal.float r.temperature
    ++ optField "top_p" FieldVal.float r.top_p
    ++ streamField r.stream
    ++ optField "presence_penalty" FieldVal.float r.presence_penalty
    ++ optField "frequency_penalty" FieldVal.float r.frequency_penalty

/-- The fixed allow-list of forwardable keys (app.py line 62). -/
def allowedKeys : List String :=
  ["messages", "model", "max_tokens", "temperature", "top_p", "stream"]

/-- The dict comprehension of app.py line 62: keep exactly the entries
whose key is in the allow-list. -/
def filterAllowed (d : List (String × FieldVal)) : List (String × FieldVal) :=
  d.filter (fun kv => allowedKeys.contains kv.1)

/-- `filtered_payload` (app.py lines 61-62): the allow-list narrowing of
the supplied fields. -/
def ChatRequest.filtered_payload (r : ChatRequest) : List (String × FieldVal) :=
  filterAllowed r.dictExcludeUnset

/-- The keys of a payload dict. -/
def dictKeys (d : List (String × FieldVal)) : List String :=
  d.map Prod.fst

/-! ## The upstream call and the endpoints

The single outbound `requests.post` / `requests.get` is modelled by an
explicit `UpstreamOutcome`: either a received response (any status) or a
`RequestException` with no response at all (connection failure,
timeout; `e.response is None`, message `str(e)`).  `response.json()` is
modelled by the `jsonBody` field: `none` when the body is not valid
JSON (`json.JSONDecodeError`), `some j` when it decodes to `j`. -/

/-- A received upstream HTTP response. -/
structure UpstreamResponse where
  status_code : Nat
  text : String
  jsonBody : Option Json

/-- Outcome of one outbound upstream call. -/
inductive UpstreamOutcome where
  | resp : UpstreamResponse → UpstreamOutcome
  | transportError : String → UpstreamOutcome

/-- `response.raise_for_status()` raises `requests.HTTPError` exactly
for 4xx and 5xx status codes. -/
def raisesForStatus (code : Nat) : Bool :=
  decide (400 ≤ code ∧ code < 600)

/-- Result of one call to the chat-completions endpoint handler. -/
inductive ChatResult where
  /-- `HTTPException(401)` raised before any upstream call. -/
  | unauthorized : Nat → String → ChatResult
  /-- Blocking mode: the decoded upstream JSON body returned verbatim. -/
  | okJson : Json → ChatResult
  /-- Streaming mode: a `StreamingResponse` wrapping `stream_generator`
  over the open response, media type `text/event-stream`. -/
  | streaming : ChatResult
  /-- `HTTPException(status, detail)` raised by an error path. -/
  | httpError : Nat → String → ChatResult
  /-- An exception no handler catches escapes the endpoint
  (FastAPI then produces a 500 Internal Server Error). -/
  | crash : ChatResult

/-- `e.response.json().get("error", e.response.text)` guarded by
`except json.JSONDecodeError` (app.py lines 89-92): if the body decodes
to a dict, the `error` value (stringified by the f-string) or the full
text as default; if it does not decode, the first 500 characters of the
text; if it decodes to a non-dict, `.get` raises `AttributeError`,
which nothing catches (`none` here). -/
def extractErrorDetail (r : UpstreamResponse) : Option String :=
  match r.jsonBody with
  | some (.obj kvs) =>
      some (match kvs.lookup "error" with
            | some v => pyFStr v
            | none => r.text)
  | some _ => none
  | none => some (pyTake r.text 500)

/-- The `except RequestException` handler of app.py lines 86-101, given
the exception's attached response (present for `raise_for_status`
errors, absent for pure transport failures) and its `str(e)` message. -/
def requestExceptionResult (respOpt : Option UpstreamResponse) (msg : String) :
    ChatResult :=
  match respOpt with
  | some r =>
      match extractErrorDetail r with
      | some d => .httpError r.status_code ("xAI API错误: " ++ d)
      | none => .crash
  | none => .httpError 504 ("xAI API错误: " ++ msg)

/-- The `POST /v1/chat/completions` handler (app.py lines 45-101), after
body validation.  `api_key` is the `X-XAI-API-Key` header (empty string
when the header is missing).  `upstream` maps the forwarded payload to
the outcome of the single `requests.post`.  Returns the handler result
and the number of outbound calls made. -/
def chat_completions (api_key : String) (req : ChatRequest)
    (upstream : List (String × FieldVal) → UpstreamOutcome) : ChatResult × Nat :=
  if api_key = "" then
    (.unauthorized 401 "缺少X-XAI-API-Key头", 0)
  else
    match upstream req.filtered_payload with
    | .transportError msg => (requestExceptionResult none msg, 1)
    | .resp r =>
        if raisesForStatus r.status_code then
          (requestExceptionResult (some r) "", 1)
        else if req.streamFlag then
          (.streaming, 1)
        else
          match r.jsonBody with
          | some j => (.okJson j, 1)
          | none => (.httpError 502 "上游服务器返回无效响应", 1)

/-- An inbound request body as FastAPI sees it: it either validates
against the `ChatRequest` model or it does not (missing/ill-typed
`messages` or `model`, undecodable JSON, ...). -/
inductive BodyParse where
  | valid : ChatRequest → BodyParse
  | invalid : BodyParse

/-- The full `POST /v1/chat/completions` endpoint as served: FastAPI
parses and validates the body against `ChatRequest` before the handler
runs, answering 422 Unprocessable Entity itself when validation fails —
the handler (and so the credential check) is then never reached. -/
def chatCompletionsEndpoint (api_key : String) (body : BodyParse)
    (upstream : List (String × FieldVal) → UpstreamOutcome) : ChatResult × Nat :=
  match body with
  | .invalid => (.httpError 422 "validation error", 0)
  | .valid req => chat_completions api_key req upstream

/-- One entry of the static fallback model catalog (app.py lines
125-132). -/
def fallbackEntry (id : String) : Json :=
  .obj [("id", .str id), ("object", .str "model"),
        ("created", .num 1744681729), ("owned_by", .str "xAI")]

/-- The static fallback catalog returned by `GET /v1/models` when the
upstream call fails (app.py lines 122-134). -/
def fallback_models : Json :=
  .obj [("object", .str "list"),
        ("data", .arr [fallbackEntry "grok-3-beta",
                       fallbackEntry "grok-3-mini-beta",
                       fallbackEntry "grok-3-fast-beta",
                       fallbackEntry "grok-3-mini-fast-beta",
                       fallbackEntry "grok-4-0709",
                       fallbackEntry "grok-4-fast-non-reasoning",
                       fallbackEntry "grok-4-fast-reasoning"])]

/-- Result of one call to the models endpoint handler. -/
inductive ModelsResult where
  /-- `HTTPException(401)`: missing credential. -/
  | unauthorized : Nat → String → ModelsResult
  /-- A JSON body returned with status 200. -/
  | okJson : Json → ModelsResult

/-- The `GET /v1/models` handler (app.py lines 105-134): 401 on a
missing credential before any call; otherwise one `requests.get`, and
any `RequestException` raised in the `try` body is absorbed into the
static fallback catalog.  That covers all three failure shapes: a
transport failure of the `requests.get`, a 4xx/5xx status raised by
`raise_for_status`, and `response.json()` on an undecodable body —
since requests 2.27, `Response.json()` raises
`requests.exceptions.JSONDecodeError`, a `RequestException` subclass,
so the decode failure is caught at app.py line 120 like the others.
Returns the result and the number of outbound calls made. -/
def get_models (api_key : String) (upstream : UpstreamOutcome) :
    ModelsResult × Nat :=
  if api_key = "" then
    (.unauthorized 401 "缺少API密钥", 0)
  else
    match upstream with
    | .transportError _ => (.okJson fallback_models, 1)
    | .resp r =>
        if raisesForStatus r.status_code then
          (.okJson fallback_models, 1)
        else
          match r.jsonBody with
          | some j => (.okJson j, 1)
          | none => (.okJson fallback_models, 1)

/-- The HTTP status a handler result carries when it is an
`HTTPException`-style error, and `none` for non-error results. -/
def ChatResult.statusOf : ChatResult → Option Nat
  | .unauthorized s _ => some s
  | .httpError s _ => some s
  | _ => none

/-! ## Concrete fixtures used by the witnesses and counterexamples -/

/-- A minimal valid blocking request: only the mandatory fields set. -/
def blockingReq : ChatRequest :=
  { messages := [], model := "grok-3-beta" }

/-- A request that sets the extension field `presence_penalty` (accepted
on input, outside the allow-list). -/
def extReq : ChatRequest :=
  { messages := [], model := "grok-3-beta", presence_penalty := some (some 1) }

/-- A request that explicitly sets the optional allow-listed fields to
`null`. -/
def nullReq : ChatRequest :=
  { messages := [], model := "grok-3-beta", max_tokens := some none,
    temperature := some none, top_p := some none }

/-- A simulated upstream 429 whose JSON body is
`\x7b"error": "rate limited"\x7d`. -/
def resp429 : UpstreamResponse :=
  { status_code := 429,
    text := "\x7b\"error\": \"rate limited\"\x7d",
    jsonBody := some (.obj [("error", .str "rate limited")]) }

/-- A simulated upstream 200 whose body `not json` is not valid JSON. -/
def respNotJson : UpstreamResponse :=
  { status_code := 200, text := "not json", jsonBody := none }

/-- A simulated upstream 500 whose body is not valid JSON. -/
def resp500 : UpstreamResponse :=
  { status_code := 500, text := String.mk (List.replicate 600 'x'), jsonBody := none }

/-! ## Helper lemmas -/

theorem dictKeys_append (a b : List (String × FieldVal)) :
    dictKeys (a ++ b) = dictKeys a ++ dictKeys b :=
  List.map_append _ a b

theorem mem_dictKeys_optField {α : Type} (name k : String) (enc : α → FieldVal)
    (o : Option (Option α)) :
    k ∈ dictKeys (optField name enc o) ↔ k = name ∧ o ≠ none := by
  cases o with
  | none => simp [optField, dictKeys]
  | some a => cases a <;> simp [optField, dictKeys]

theorem mem_dictKeys_streamField (k : String) (o : Option Bool) :
    k ∈ dictKeys (streamField o) ↔ k = "stream" ∧ o ≠ none := by
  cases o <;> simp [streamField, dictKeys]

theorem mem_dictKeys_dictExcludeUnset (r : ChatRequest) (k : String) :
    k ∈ dictKeys r.dictExcludeUnset ↔
      (k = "messages" ∨ k = "model"
        ∨ (k = "max_tokens" ∧ r.max_tokens ≠ none)
        ∨ (k = "temperature" ∧ r.temperature ≠ none)
        ∨ (k = "top_p" ∧ r.top_p ≠ none)
        ∨ (k = "stream" ∧ r.stream ≠ none)
        ∨ (k = "presence_penalty" ∧ r.presence_penalty ≠ none)
        ∨ (k = "frequency_penalty" ∧ r.frequency_penalty ≠ none)) := by
  simp only [ChatRequest.dictExcludeUnset, dictKeys_append, List.mem_append,
    mem_dictKeys_optField, mem_dictKeys_streamField]
  simp [dictKeys, or_assoc]

theorem mem_filterAllowed (d : List (String × FieldVal)) (kv : String × FieldVal) :
    kv ∈ filterAllowed d ↔ kv ∈ d ∧ kv.1 ∈ allowedKeys := by
  simp [filterAllowed, List.mem_filter, List.elem_iff]

theorem mem_dictKeys_filterAllowed (d : List (String × FieldVal)) (k : String) :
    k ∈ dictKeys (filterAllowed d) ↔ k ∈ dictKeys d ∧ k ∈ allowedKeys := by
  simp only [dictKeys, List.mem_map]
  constructor
  · rintro ⟨kv, hkv, rfl⟩
    rw [mem_filterAllowed] at hkv
    exact ⟨⟨kv, hkv.1, rfl⟩, hkv.2⟩
  · rintro ⟨⟨kv, hkv, rfl⟩, hk⟩
    exact ⟨kv, (mem_filterAllowed d kv).2 ⟨hkv, hk⟩, rfl⟩

/-! ## Claim theorems -/

/-- C1.  In streaming mode, each non-empty upstream line carrying the
`data: ` prefix is re-emitted with the prefix stripped as
`data: <remainder>\n\n`; a non-empty line without the prefix produces
exactly the one synthesized `data: \x7b"error": "Invalid chunk
format"\x7d\n\n` event while later valid lines still relay; empty lines
produce no event. -/
theorem stream_line_relay :
    (∀ chunk : String, chunk ≠ "" → pyStartsWith chunk "data: " = true →
        relayChunk chunk = some ("data: " ++ pyDrop chunk 6 ++ "\n\n")) ∧
    (∀ chunk : String, chunk ≠ "" → pyStartsWith chunk "data: " = false →
        relayChunk chunk
          = some ("data: \x7b\"error\": \"Invalid chunk format\"\x7d\n\n")) ∧
    relayChunk "" = none ∧
    (∀ lines : List String,
        emittedEvents lines .normal = lines.filterMap relayChunk) ∧
    emittedEvents
        ["data: \x7b\"a\":1\x7d", "", "bad line", "data: \x7b\"a\":2\x7d"] .normal
      = ["data: \x7b\"a\":1\x7d\n\n",
         "data: \x7b\"error\": \"Invalid chunk format\"\x7d\n\n",
         "data: \x7b\"a\":2\x7d\n\n"] := by
  refine ⟨?_, ?_, rfl, fun _ => by simp [emittedEvents], by decide⟩
  · intro chunk h1 h2
    simp [relayChunk, h1, h2]
  · intro chunk h1 h2
    simp [relayChunk, h1, h2]
    rfl

/-- Witness for C1 at concrete lines. -/
theorem stream_line_relay_witness :
    relayChunk "data: \x7b\"a\":1\x7d"
      = some ("data: " ++ pyDrop "data: \x7b\"a\":1\x7d" 6 ++ "\n\n") ∧
    relayChunk "bad line"
      = some ("data: \x7b\"error\": \"Invalid chunk format\"\x7d\n\n") :=
  ⟨stream_line_relay.1 "data: \x7b\"a\":1\x7d" (by decide) (by decide),
   stream_line_relay.2.1 "bad line" (by decide) (by decide)⟩

/-- C2.  Whatever way a streaming-mode run of `stream_generator` ends —
upstream lines exhausted, transport failure turned into an error event,
or the consumer cancelling after any number of events — the `finally`
clause closes the upstream response exactly once. -/
theorem stream_upstream_closed_once (lines : List String)
    (ending : StreamEnding) (stop : ConsumerStop) :
    (stream_generator lines ending true stop).closes = 1 := by
  cases stop <;> simp [stream_generator, finallyClose]

/-- C4.  A transport failure while iterating the upstream stream appends
exactly one synthesized `data: \x7b"error": <message>\x7d\n\n` event and
then the sequence ends; normal termination appends nothing. -/
theorem stream_transport_error_single_event (lines : List String) (msg : String) :
    emittedEvents lines (.transportError msg)
      = lines.filterMap relayChunk
          ++ ["data: " ++ jsonDumpsError msg ++ "\n\n"] ∧
    emittedEvents lines .normal = lines.filterMap relayChunk :=
  ⟨rfl, by simp [emittedEvents]⟩

/-- Counterexample to C3 as stated: for the simulated upstream 429 with
body `\x7b"error": "rate limited"\x7d`, the caller's detail is the
extracted message prefixed with the fixed tag `xAI API错误: `, not the
bare string `rate limited`. -/
theorem blocking_429_detail_counterexample :
    (chat_completions "sk-test" blockingReq (fun _ => .resp resp429)).1
      = .httpError 429 "xAI API错误: rate limited" ∧
    "xAI API错误: rate limited" ≠ "rate limited" :=
  ⟨rfl, by decide⟩

/-- C3 (amended).  In blocking mode, when the upstream call fails the
caller receives an error whose status mirrors the upstream status (504
when no response was received) and whose detail is the fixed tag
`xAI API错误: ` followed by: the body's `error` field when the body
parses as a JSON object carrying one, the first 500 characters of the
raw body when it does not parse, or the transport exception message when
no response exists. -/
theorem blocking_error_envelope (key : String) (req : ChatRequest)
    (hkey : key ≠ "") (hstream : req.streamFlag = false) :
    (∀ (r : UpstreamResponse) (kvs : List (String × Json)) (s : String),
        raisesForStatus r.status_code = true →
        r.jsonBody = some (.obj kvs) → kvs.lookup "error" = some (.str s) →
        chat_completions key req (fun _ => .resp r)
          = (.httpError r.status_code ("xAI API错误: " ++ s), 1)) ∧
    (∀ r : UpstreamResponse,
        raisesForStatus r.status_code = true → r.jsonBody = none →
        chat_completions key req (fun _ => .resp r)
          = (.httpError r.status_code ("xAI API错误: " ++ pyTake r.text 500), 1)) ∧
    (∀ msg : String,
        chat_completions key req (fun _ => .transportError msg)
          = (.httpError 504 ("xAI API错误: " ++ msg), 1)) := by
  refine ⟨?_, ?_, ?_⟩
  · intro r kvs s hrs hj hl
    simp [chat_completions, hkey, hrs, requestExceptionResult,
          extractErrorDetail, hj, hl, pyFStr]
  · intro r hrs hj
    simp [chat_completions, hkey, hrs, requestExceptionResult,
          extractErrorDetail, hj]
  · intro msg
    simp [chat_completions, hkey, requestExceptionResult]

/-- Witness for C3 (amended) at the spec's 429 example, at a 500 with an
undecodable long body, and at a pure transport failure. -/
theorem blocking_error_envelope_witness :
    chat_completions "sk-test" blockingReq (fun _ => .resp resp429)
      = (.httpError resp429.status_code ("xAI API错误: " ++ "rate limited"), 1) ∧
    chat_completions "sk-test" blockingReq (fun _ => .resp resp500)
      = (.httpError resp500.status_code
           ("xAI API错误: " ++ pyTake resp500.text 500), 1) ∧
    chat_completions "sk-test" blockingReq (fun _ => .transportError "timed out")
      = (.httpError 504 ("xAI API错误: " ++ "timed out"), 1) :=
  ⟨(blocking_error_envelope "sk-test" blockingReq (by decide) rfl).1 resp429
      [("error", .str "rate limited")] "rate limited" (by decide) rfl rfl,
   (blocking_error_envelope "sk-test" blockingReq (by decide) rfl).2.1 resp500
      (by decide) rfl,
   (blocking_error_envelope "sk-test" blockingReq (by decide) rfl).2.2 "timed out"⟩

/-- Counterexample to C6 as stated: a request whose body fails model
validation is answered 422 by the validation layer even when the
credential header is missing — the claimed unconditional 401 does not
hold for invalid bodies (no outbound call is made either way). -/
theorem missing_credential_invalid_body_counterexample :
    (chatCompletionsEndpoint "" .invalid (fun _ => .transportError "refused")).1.statusOf
      = some 422 ∧
    (some 422 : Option Nat) ≠ some 401 ∧
    (chatCompletionsEndpoint "" .invalid (fun _ => .transportError "refused")).2 = 0 :=
  ⟨rfl, by decide, rfl⟩

/-- C6 (amended).  A missing (empty) credential on the chat-completions
handler or the models endpoint yields a 401 with no outbound call made,
for every request body that passes model validation; a body that fails
validation is rejected 422 by the validation layer before the credential
check, also with no outbound call. -/
theorem missing_credential_unauthorized :
    (∀ (req : ChatRequest) (upstream : List (String × FieldVal) → UpstreamOutcome),
        chat_completions "" req upstream
          = (.unauthorized 401 "缺少X-XAI-API-Key头", 0)) ∧
    (∀ upstream : UpstreamOutcome,
        get_models "" upstream = (.unauthorized 401 "缺少API密钥", 0)) ∧
    (∀ (req : ChatRequest) (upstream : List (String × FieldVal) → UpstreamOutcome),
        chatCompletionsEndpoint "" (.valid req) upstream
          = (.unauthorized 401 "缺少X-XAI-API-Key头", 0)) ∧
    (∀ upstream : List (String × FieldVal) → UpstreamOutcome,
        chatCompletionsEndpoint "" .invalid upstream
          = (.httpError 422 "validation error", 0)) :=
  ⟨fun _ _ => rfl, fun _ => rfl, fun _ _ => rfl, fun _ => rfl⟩

/-- C7.  In blocking mode, a success upstream status with a body that is
not valid JSON yields the 502 upstream-decode error, not the raw body
and not a 200. -/
theorem blocking_invalid_json_502 (key : String) (req : ChatRequest)
    (r : UpstreamResponse) (hkey : key ≠ "") (hstream : req.streamFlag = false)
    (hstatus : r.status_code < 400) (hbody : r.jsonBody = none) :
    chat_completions key req (fun _ => .resp r)
      = (.httpError 502 "上游服务器返回无效响应", 1) := by
  have hrs : raisesForStatus r.status_code = false := by
    simp only [raisesForStatus, decide_eq_false_iff_not]
    omega
  simp [chat_completions, hkey, hrs, hstream, hbody]

/-- Witness for C7 at the spec's example: a 200 with body `not json`. -/
theorem blocking_invalid_json_502_witness :
    chat_completions "sk-test" blockingReq (fun _ => .resp respNotJson)
      = (.httpError 502 "上游服务器返回无效响应", 1) :=
  blocking_invalid_json_502 "sk-test" blockingReq respNotJson (by decide) rfl
    (by decide) rfl

/-- C5.  The forwarded payload contains exactly the keys that were set
in the request and are in the allow-list; the extension fields
`presence_penalty` and `frequency_penalty` are never forwarded; an
optional field the client omitted does not appear. -/
theorem forwarded_keys_allowlisted (r : ChatRequest) (k : String) :
    (k ∈ dictKeys r.filtered_payload ↔
        k ∈ dictKeys r.dictExcludeUnset ∧ k ∈ allowedKeys) ∧
    "presence_penalty" ∉ dictKeys r.filtered_payload ∧
    "frequency_penalty" ∉ dictKeys r.filtered_payload ∧
    (r.max_tokens = none → "max_tokens" ∉ dictKeys r.filtered_payload) ∧
    (r.temperature = none → "temperature" ∉ dictKeys r.filtered_payload) ∧
    (r.top_p = none → "top_p" ∉ dictKeys r.filtered_payload) ∧
    (r.stream = none → "stream" ∉ dictKeys r.filtered_payload) := by
  have hmain := mem_dictKeys_filterAllowed r.dictExcludeUnset
  refine ⟨hmain k, ?_, ?_, ?_, ?_, ?_, ?_⟩
  · intro h
    exact absurd ((hmain "presence_penalty").1 h).2 (by decide)
  · intro h
    exact absurd ((hmain "frequency_penalty").1 h).2 (by decide)
  · intro hnone h
    have h2 := (mem_dictKeys_dictExcludeUnset r "max_tokens").1
      ((hmain "max_tokens").1 h).1
    simp [hnone] at h2
  · intro hnone h
    have h2 := (mem_dictKeys_dictExcludeUnset r "temperature").1
      ((hmain "temperature").1 h).1
    simp [hnone] at h2
  · intro hnone h
    have h2 := (mem_dictKeys_dictExcludeUnset r "top_p").1
      ((hmain "top_p").1 h).1
    simp [hnone] at h2
  · intro hnone h
    have h2 := (mem_dictKeys_dictExcludeUnset r "stream").1
      ((hmain "stream").1 h).1
    simp [hnone] at h2

/-- Witness for C5: a request setting the extension field
`presence_penalty` does not forward it, and the omitted `max_tokens`
does not appear either. -/
theorem forwarded_keys_allowlisted_witness :
    "presence_penalty" ∉ dictKeys extReq.filtered_payload ∧
    "max_tokens" ∉ dictKeys extReq.filtered_payload :=
  ⟨(forwarded_keys_allowlisted extReq "presence_penalty").2.1,
   (forwarded_keys_allowlisted extReq "max_tokens").2.2.2.1 rfl⟩

/-- C8.  With a non-empty credential, every failure of the upstream
models call — a transport failure, a 4xx/5xx status, and also a success
status whose body does not decode as JSON (requests' `JSONDecodeError`
is a `RequestException`, caught at app.py line 120) — is absorbed into
the 200 static fallback catalog; a success status with a JSON body is
passed through; on every upstream outcome whatsoever the caller gets a
200 JSON result, so 401 for a missing credential is the only failure
status the endpoint can return. -/
theorem models_fallback_on_upstream_failure (key : String) (hkey : key ≠ "") :
    (∀ msg : String,
        get_models key (.transportError msg) = (.okJson fallback_models, 1)) ∧
    (∀ r : UpstreamResponse, raisesForStatus r.status_code = true →
        get_models key (.resp r) = (.okJson fallback_models, 1)) ∧
    (∀ r : UpstreamResponse, raisesForStatus r.status_code = false →
        r.jsonBody = none →
        get_models key (.resp r) = (.okJson fallback_models, 1)) ∧
    (∀ (r : UpstreamResponse) (j : Json), raisesForStatus r.status_code = false →
        r.jsonBody = some j → get_models key (.resp r) = (.okJson j, 1)) ∧
    (∀ upstream : UpstreamOutcome, ∃ j : Json,
        get_models key upstream = (.okJson j, 1)) := by
  refine ⟨?_, ?_, ?_, ?_, ?_⟩
  · intro msg
    simp [get_models, hkey]
  · intro r hrs
    simp [get_models, hkey, hrs]
  · intro r hrs hj
    simp [get_models, hkey, hrs, hj]
  · intro r j hrs hj
    simp [get_models, hkey, hrs, hj]
  · intro upstream
    rcases upstream with r | msg
    · by_cases hrs : raisesForStatus r.status_code = true
      · exact ⟨fallback_models, by simp [get_models, hkey, hrs]⟩
      · rcases hj : r.jsonBody with _ | j
        · exact ⟨fallback_models,
            by simp [get_models, hkey, Bool.of_not_eq_true hrs, hj]⟩
        · exact ⟨j, by simp [get_models, hkey, Bool.of_not_eq_true hrs, hj]⟩
    · exact ⟨fallback_models, by simp [get_models, hkey]⟩

/-- Witness for C8: a connection failure, a 429, and a 200 with the
undecodable body `not json` all give the fallback catalog; a 200 with a
JSON body passes it through. -/
theorem models_fallback_on_upstream_failure_witness :
    get_models "sk-m" (.transportError "refused") = (.okJson fallback_models, 1) ∧
    get_models "sk-m" (.resp resp429) = (.okJson fallback_models, 1) ∧
    get_models "sk-m" (.resp respNotJson) = (.okJson fallback_models, 1) ∧
    get_models "sk-m"
        (.resp { status_code := 200, text := "[]", jsonBody := some (.arr []) })
      = (.okJson (.arr []), 1) :=
  ⟨(models_fallback_on_upstream_failure "sk-m" (by decide)).1 "refused",
   (models_fallback_on_upstream_failure "sk-m" (by decide)).2.1 resp429 (by decide),
   (models_fallback_on_upstream_failure "sk-m" (by decide)).2.2.1 respNotJson
     (by decide) rfl,
   (models_fallback_on_upstream_failure "sk-m" (by decide)).2.2.2.1
     { status_code := 200, text := "[]", jsonBody := some (.arr []) } (.arr [])
     (by decide) rfl⟩

/-- C9.  The allow-list narrowing is idempotent — filtering its own
output changes nothing, on arbitrary dicts and on every request's
forwarded payload — and an entry of the original dict survives it
exactly when its key is in the allow-list. -/
theorem allowlist_filter_idempotent :
    (∀ d : List (String × FieldVal),
        filterAllowed (filterAllowed d) = filterAllowed d) ∧
    (∀ r : ChatRequest,
        filterAllowed r.filtered_payload = r.filtered_payload) ∧
    (∀ (d : List (String × FieldVal)) (kv : String × FieldVal), kv ∈ d →
        (kv ∈ filterAllowed d ↔ kv.1 ∈ allowedKeys)) := by
  have hidem : ∀ d : List (String × FieldVal),
      filterAllowed (filterAllowed d) = filterAllowed d := by
    intro d
    simp [filterAllowed, List.filter_filter]
  refine ⟨hidem, fun r => hidem r.dictExcludeUnset, ?_⟩
  intro d kv hkv
  rw [mem_filterAllowed]
  exact ⟨fun h => h.2, fun h => ⟨hkv, h⟩⟩

/-- Witness for C9: the forwarded payload of a concrete request is a
fixed point of the narrowing, and its `model` entry survives because
`model` is allow-listed. -/
theorem allowlist_filter_idempotent_witness :
    filterAllowed (filterAllowed (ChatRequest.dictExcludeUnset extReq))
      = filterAllowed extReq.dictExcludeUnset ∧
    (("model", FieldVal.str "grok-3-beta") ∈ filterAllowed extReq.dictExcludeUnset ↔
      "model" ∈ allowedKeys) :=
  ⟨allowlist_filter_idempotent.1 extReq.dictExcludeUnset,
   allowlist_filter_idempotent.2.2 extReq.dictExcludeUnset
     ("model", FieldVal.str "grok-3-beta") (by simp [ChatRequest.dictExcludeUnset, extReq])⟩

/-- C10.  An optional allow-listed field explicitly supplied as `null`
is forwarded with value `null`, while the same field omitted from the
request is absent from the forwarded payload. -/
theorem explicit_null_forwarded (r : ChatRequest) :
    (r.max_tokens = some none →
        ("max_tokens", FieldVal.null) ∈ r.filtered_payload) ∧
    (r.temperature = some none →
        ("temperature", FieldVal.null) ∈ r.filtered_payload) ∧
    (r.top_p = some none →
        ("top_p", FieldVal.null) ∈ r.filtered_payload) ∧
    (r.max_tokens = none → "max_tokens" ∉ dictKeys r.filtered_payload) ∧
    (r.temperature = none → "temperature" ∉ dictKeys r.filtered_payload) ∧
    (r.top_p = none → "top_p" ∉ dictKeys r.filtered_payload) := by
  refine ⟨?_, ?_, ?_, ?_, ?_, ?_⟩
  · intro h
    rw [ChatRequest.filtered_payload, mem_filterAllowed]
    refine ⟨?_, by decide⟩
    simp [ChatRequest.dictExcludeUnset, h, optField]
  · intro h
    rw [ChatRequest.filtered_payload, mem_filterAllowed]
    refine ⟨?_, by decide⟩
    simp [ChatRequest.dictExcludeUnset, h, optField]
  · intro h
    rw [ChatRequest.filtered_payload, mem_filterAllowed]
    refine ⟨?_, by decide⟩
    simp [ChatRequest.dictExcludeUnset, h, optField]
  · intro hnone h
    have h2 := (mem_dictKeys_dictExcludeUnset r "max_tokens").1
      ((mem_dictKeys_filterAllowed r.dictExcludeUnset "max_tokens").1 h).1
    simp [hnone] at h2
  · intro hnone h
    have h2 := (mem_dictKeys_dictExcludeUnset r "temperature").1
      ((mem_dictKeys_filterAllowed r.dictExcludeUnset "temperature").1 h).1
    simp [hnone] at h2
  · intro hnone h
    have h2 := (mem_dictKeys_dictExcludeUnset r "top_p").1
      ((mem_dictKeys_filterAllowed r.dictExcludeUnset "top_p").1 h).1
    simp [hnone] at h2

/-- Witness for C10: explicit nulls in `nullReq` are forwarded, the
omitted `max_tokens` of `blockingReq` is not. -/
theorem explicit_null_forwarded_witness :
    ("max_tokens", FieldVal.null) ∈ nullReq.filtered_payload ∧
    ("temperature", FieldVal.null) ∈ nullReq.filtered_payload ∧
    "max_tokens" ∉ dictKeys blockingReq.filtered_payload :=
  ⟨(explicit_null_forwarded nullReq).1 rfl,
   (explicit_null_forwarded nullReq).2.1 rfl,
   (explicit_null_forwarded blockingReq).2.2.2.1 rfl⟩
